import Mathlib

/-!
Verification of the Minra-Mosaique core against its specification.

The development shallowly embeds the four core components of the backend
(`mosaicing.py`, `demosaicing.py`, `metrics.py`, `mosaic_format.py`) as
executable Lean definitions and proves / refutes the specification claims
about them.

Numpy arrays are modelled as dense arrays of natural numbers indexed by a
list of indices (`NDArray`), with the shape stored alongside; byte strings
are lists of naturals below 256.  The external JPEG codec (PIL) is treated
as an injected capability, following the design note of the spec: encoding takes
an abstract `compress` function and decoding an abstract `decompress`
function, and nothing proved below depends on their internals.
-/

namespace Mosaique

/-- Error taxonomy of the core (spec §7).  The Python code raises
`ValueError` (and, in one unintended corner case, `IndexError`) with
distinguishing messages; each constructor corresponds to one of those
failure sites. -/
inductive MErr where
  | invalidShape
  | invalidQuality
  | dimensionTooLarge
  | unknownAlgorithm
  | tooSmall
  | badMagic
  | unsupportedVersion
  | truncated
  | checksumMismatch
  | codecFailure
  | structRangeError
  | indexError
  deriving DecidableEq, Repr

/-- A dense numpy-style array of unsigned 8-bit samples: a shape together
with the value at each index tuple.  Values at out-of-range index tuples
are irrelevant to every theorem below. -/
structure NDArray where
  shape : List Nat
  data : List Nat → Nat

/-! ### `mosaicing.py` -/

/-- The pixel values produced by the four numpy slice assignments of
`apply_bayer_mosaic` (mosaicing.py:33-41), as a function of the index
tuple. -/
def bayerCfaData (a : NDArray) (idx : List Nat) : Nat :=
  let i := idx.getD 0 0
  let j := idx.getD 1 0
  if i % 2 = 0 ∧ j % 2 = 0 then a.data [i, j, 0]
  else if i % 2 = 0 ∧ j % 2 = 1 then a.data [i, j, 1]
  else if i % 2 = 1 ∧ j % 2 = 0 then a.data [i, j, 1]
  else a.data [i, j, 2]

/-- `apply_bayer_mosaic` (mosaicing.py:5-43).  Checks that the input is a
3-channel 2D grid, then samples one channel per pixel following the RGGB
parity rule exactly as the four numpy slice assignments do. -/
def apply_bayer_mosaic (a : NDArray) : Except MErr NDArray :=
  if a.shape.length ≠ 3 ∨ a.shape.getD 2 0 ≠ 3 then
    .error .invalidShape
  else
    .ok { shape := [a.shape.getD 0 0, a.shape.getD 1 0],
          data := bayerCfaData a }

/-- The pixel values produced by the four numpy slice assignments of
`generate_colorized_view` (mosaicing.py:62-70), as a function of the
index tuple. -/
def colorizedData (cfa : NDArray) (idx : List Nat) : Nat :=
  let i := idx.getD 0 0
  let j := idx.getD 1 0
  let c := idx.getD 2 0
  if i % 2 = 0 ∧ j % 2 = 0 ∧ c = 0 then cfa.data [i, j]
  else if i % 2 = 0 ∧ j % 2 = 1 ∧ c = 1 then cfa.data [i, j]
  else if i % 2 = 1 ∧ j % 2 = 0 ∧ c = 1 then cfa.data [i, j]
  else if i % 2 = 1 ∧ j % 2 = 1 ∧ c = 2 then cfa.data [i, j]
  else 0

/-- `generate_colorized_view` (mosaicing.py:46-72).  Builds an (H, W, 3)
grid that is zero everywhere except that each CFA sample is placed back
into its originating channel. -/
def generate_colorized_view (cfa : NDArray) : NDArray :=
  { shape := [cfa.shape.getD 0 0, cfa.shape.getD 1 0, 3],
    data := colorizedData cfa }

/-- `get_bayer_masks` (mosaicing.py:75-96).  The three boolean location
masks of the (fixed) RGGB pattern; the function takes no pattern
argument in the source. -/
def get_bayer_masks (height width : Nat) :
    (Nat → Nat → Bool) × (Nat → Nat → Bool) × (Nat → Nat → Bool) :=
  (fun i j => i % 2 = 0 && j % 2 = 0,
   fun i j => (i % 2 = 0 && j % 2 = 1) || (i % 2 = 1 && j % 2 = 0),
   fun i j => i % 2 = 1 && j % 2 = 1)

/-- The channel (0 = R, 1 = G, 2 = B) that the RGGB parity rule assigns
to position `(i, j)`. -/
def rggbChannel (i j : Nat) : Nat :=
  if i % 2 = 0 ∧ j % 2 = 0 then 0
  else if i % 2 = 1 ∧ j % 2 = 1 then 2
  else 1

/-! ### `demosaicing.py` -/

/-- scipy.ndimage boundary mode `reflect`: indices beyond an axis of
length `n` are folded back by half-sample symmetry
(`d c b a | a b c d | d c b a`), which is `2·n`-periodic. -/
def reflectIdx (n : Nat) (i : Int) : Nat :=
  let r := (i % (2 * (n : Int))).toNat
  if r < n then r else 2 * n - 1 - r

/-- `scipy.ndimage.convolve` of a 2D array (presented as an index
function on a `h × w` domain) with an odd-sized kernel, boundary mode
`reflect`: `out[i,j] = Σ_{a,b} k[a][b] · f[i + ch - a, j + cw - b]`
where `(ch, cw)` is the kernel centre. -/
def convolve2d (f : Nat → Nat → ℚ) (h w : Nat) (k : List (List ℚ)) :
    Nat → Nat → ℚ :=
  let kh := k.length
  let kw := (k.headD []).length
  fun i j =>
    ∑ a ∈ Finset.range kh, ∑ b ∈ Finset.range kw,
      (k.getD a []).getD b 0 *
        f (reflectIdx h ((i : Int) + (kh / 2 : Nat) - a))
          (reflectIdx w ((j : Int) + (kw / 2 : Nat) - b))

/-- `np.clip(x, 0, 255).astype(np.uint8)` applied to one value: clamp to
`[0, 255]` then truncate to an unsigned 8-bit integer. -/
def toUint8 (q : ℚ) : Nat := (⌊max 0 (min 255 q)⌋).toNat

/-- The value the 2×2-block loop of `demosaic_nearest_neighbor`
(demosaicing.py:25-39) writes at index `(y, x, c)`: positions covered by
a complete 2×2 block take its `(R, (G1+G2)//2, B)` triple, the
rest keep the zero initialisation. -/
def nnBlockData (cfa : NDArray) (h w : Nat) (idx : List Nat) : Nat :=
  let y := idx.getD 0 0
  let x := idx.getD 1 0
  let c := idx.getD 2 0
  if y < h - h % 2 ∧ x < w - w % 2 then
    let yb := 2 * (y / 2)
    let xb := 2 * (x / 2)
    if c = 0 then cfa.data [yb, xb]
    else if c = 1 then (cfa.data [yb, xb + 1] + cfa.data [yb + 1, xb]) / 2
    else if c = 2 then cfa.data [yb + 1, xb + 1]
    else 0
  else 0

/-- `rgb[-1, :] = rgb[-2, :]` (demosaicing.py:43) as an index remap. -/
def replicateLastRow (d : List Nat → Nat) (h : Nat) : List Nat → Nat :=
  fun idx =>
    if idx.getD 0 0 = h - 1 then d [h - 2, idx.getD 1 0, idx.getD 2 0]
    else d idx

/-- `rgb[:, -1] = rgb[:, -2]` (demosaicing.py:45) as an index remap. -/
def replicateLastCol (d : List Nat → Nat) (w : Nat) : List Nat → Nat :=
  fun idx =>
    if idx.getD 1 0 = w - 1 then d [idx.getD 0 0, w - 2, idx.getD 2 0]
    else d idx

/-- `demosaic_nearest_neighbor` (demosaicing.py:8-47).  Fills each
complete 2×2 block with its `(R, G, B)` triple, then replicates the last
complete row/column into an odd trailing row/column.  The replication
indexes row/column `-2`, which raises `IndexError` in numpy when the
corresponding dimension is 1; that failure is modelled explicitly. -/
def demosaic_nearest_neighbor (cfa : NDArray) : Except MErr NDArray :=
  let h := cfa.shape.getD 0 0
  let w := cfa.shape.getD 1 0
  let base := nnBlockData cfa h w
  if h % 2 = 1 ∧ h < 2 then .error .indexError
  else
    let d1 := if h % 2 = 1 then replicateLastRow base h else base
    if w % 2 = 1 ∧ w < 2 then .error .indexError
    else
      let d2 := if w % 2 = 1 then replicateLastCol d1 w else d1
      .ok { shape := [h, w, 3], data := d2 }

/-- Bilinear kernel `kernel_G_at_RB` (demosaicing.py:71-75). -/
def kernel_G_at_RB : List (List ℚ) :=
  [[0, 1, 0], [1, 4, 1], [0, 1, 0]].map (List.map (fun x => x / 4))

/-- Bilinear kernel `kernel_RB_horiz` (demosaicing.py:78-82). -/
def kernel_RB_horiz : List (List ℚ) :=
  [[0, 0, 0], [1, 0, 1], [0, 0, 0]].map (List.map (fun x => x / 2))

/-- Bilinear kernel `kernel_RB_vert` (demosaicing.py:85-89). -/
def kernel_RB_vert : List (List ℚ) :=
  [[0, 1, 0], [0, 0, 0], [0, 1, 0]].map (List.map (fun x => x / 2))

/-- Bilinear kernel `kernel_RB_at_BR` (demosaicing.py:92-96). -/
def kernel_RB_at_BR : List (List ℚ) :=
  [[1, 0, 1], [0, 0, 0], [1, 0, 1]].map (List.map (fun x => x / 4))

/-- `G_at_R_row` (demosaicing.py:114-116): green positions in rows that
contain red samples. -/
def gAtRRow (i j : Nat) : Bool := i % 2 = 0 && j % 2 = 1

/-- `G_at_B_row` (demosaicing.py:115-117): green positions in rows that
contain blue samples. -/
def gAtBRow (i j : Nat) : Bool := i % 2 = 1 && j % 2 = 0

/-- `cfa_float * mask` (demosaicing.py:120 etc.): zero out the samples
outside a boolean mask. -/
def maskMul (f : Nat → Nat → ℚ) (m : Nat → Nat → Bool) : Nat → Nat → ℚ :=
  fun i j => if m i j then f i j else 0

/-- `demosaic_bilinear` (demosaicing.py:50-143): per-plane bilinear
interpolation with reflect boundaries, followed by clip-and-cast. -/
def demosaic_bilinear (cfa : NDArray) : NDArray :=
  let h := cfa.shape.getD 0 0
  let w := cfa.shape.getD 1 0
  let f : Nat → Nat → ℚ := fun i j => (cfa.data [i, j] : ℚ)
  let masks := get_bayer_masks h w
  let rMask := masks.1
  let gMask := masks.2.1
  let bMask := masks.2.2
  -- copy known values over the zero initialisation
  let r0 := maskMul f rMask
  let g0 := maskMul f gMask
  let b0 := maskMul f bMask
  -- green at R and B locations
  let gInterp := convolve2d f h w kernel_G_at_RB
  let g1 := fun i j => if rMask i j || bMask i j then gInterp i j else g0 i j
  -- R at G locations
  let rHoriz := convolve2d (maskMul f rMask) h w kernel_RB_horiz
  let rVert := convolve2d (maskMul f rMask) h w kernel_RB_vert
  let r1 := fun i j =>
    if gAtRRow i j then rHoriz i j * 2
    else if gAtBRow i j then rVert i j * 2
    else r0 i j
  -- B at G locations
  let bHoriz := convolve2d (maskMul f bMask) h w kernel_RB_horiz
  let bVert := convolve2d (maskMul f bMask) h w kernel_RB_vert
  let b1 := fun i j =>
    if gAtBRow i j then bHoriz i j * 2
    else if gAtRRow i j then bVert i j * 2
    else b0 i j
  -- R at B locations and B at R locations (diagonal)
  let rDiag := convolve2d (maskMul f rMask) h w kernel_RB_at_BR
  let bDiag := convolve2d (maskMul f bMask) h w kernel_RB_at_BR
  let r2 := fun i j => if bMask i j then rDiag i j * 4 else r1 i j
  let b2 := fun i j => if rMask i j then bDiag i j * 4 else b1 i j
  { shape := [h, w, 3],
    data := fun idx =>
      let i := idx.getD 0 0
      let j := idx.getD 1 0
      let c := idx.getD 2 0
      if c = 0 then toUint8 (r2 i j)
      else if c = 1 then toUint8 (g1 i j)
      else if c = 2 then toUint8 (b2 i j)
      else 0 }

/-- Malvar-He-Cutler kernel `GR_GB` (demosaicing.py:169-175). -/
def kernel_GR_GB : List (List ℚ) :=
  [[0, 0, -1, 0, 0],
   [0, 0, 2, 0, 0],
   [-1, 2, 4, 2, -1],
   [0, 0, 2, 0, 0],
   [0, 0, -1, 0, 0]].map (List.map (fun x => x / 8))

/-- Malvar-He-Cutler kernel `Rg_RB_Bg_BR` (demosaicing.py:178-184). -/
def kernel_Rg_RB_Bg_BR : List (List ℚ) :=
  [[0, 0, 1/2, 0, 0],
   [0, -1, 0, -1, 0],
   [-1, 4, 5, 4, -1],
   [0, -1, 0, -1, 0],
   [0, 0, 1/2, 0, 0]].map (List.map (fun x => x / 8))

/-- Malvar-He-Cutler kernel `Rg_BR_Bg_RB` (demosaicing.py:188): the
transpose of `Rg_RB_Bg_BR`. -/
def kernel_Rg_BR_Bg_RB : List (List ℚ) := kernel_Rg_RB_Bg_BR.transpose

/-- Malvar-He-Cutler kernel `Rb_BB_Br_RR` (demosaicing.py:191-197). -/
def kernel_Rb_BB_Br_RR : List (List ℚ) :=
  [[0, 0, -3/2, 0, 0],
   [0, 2, 0, 2, 0],
   [-3/2, 0, 6, 0, -3/2],
   [0, 2, 0, 2, 0],
   [0, 0, -3/2, 0, 0]].map (List.map (fun x => x / 8))

/-- `demosaic_malvar_he_cutler` (demosaicing.py:146-244):
gradient-corrected linear reconstruction with four 5×5 kernels convolved
over the raw CFA, results selected per position class, then
clip-and-cast. -/
def demosaic_malvar_he_cutler (cfa : NDArray) : NDArray :=
  let h := cfa.shape.getD 0 0
  let w := cfa.shape.getD 1 0
  let f : Nat → Nat → ℚ := fun i j => (cfa.data [i, j] : ℚ)
  let masks := get_bayer_masks h w
  let rMask := masks.1
  let gMask := masks.2.1
  let bMask := masks.2.2
  -- copy known values over the zero initialisation
  let r0 := maskMul f rMask
  let g0 := maskMul f gMask
  let b0 := maskMul f bMask
  -- green at R and B locations
  let gInterp := convolve2d f h w kernel_GR_GB
  let g1 := fun i j => if rMask i j || bMask i j then gInterp i j else g0 i j
  -- R at G in B row / B at G in R row (horizontal neighbours)
  let rbHoriz := convolve2d f h w kernel_Rg_RB_Bg_BR
  -- R at G in R row / B at G in B row (vertical neighbours)
  let rbVert := convolve2d f h w kernel_Rg_BR_Bg_RB
  let r1 := fun i j =>
    if gAtBRow i j then rbHoriz i j
    else if gAtRRow i j then rbVert i j
    else r0 i j
  let b1 := fun i j =>
    if gAtRRow i j then rbHoriz i j
    else if gAtBRow i j then rbVert i j
    else b0 i j
  -- R at B locations and B at R locations
  let rbDiag := convolve2d f h w kernel_Rb_BB_Br_RR
  let r2 := fun i j => if bMask i j then rbDiag i j else r1 i j
  let b2 := fun i j => if rMask i j then rbDiag i j else b1 i j
  { shape := [h, w, 3],
    data := fun idx =>
      let i := idx.getD 0 0
      let j := idx.getD 1 0
      let c := idx.getD 2 0
      if c = 0 then toUint8 (r2 i j)
      else if c = 1 then toUint8 (g1 i j)
      else if c = 2 then toUint8 (b2 i j)
      else 0 }

/-- `demosaic` (demosaicing.py:248-270): dispatch over the closed
algorithm table `DEMOSAIC_ALGORITHMS`. -/
def demosaic (cfa : NDArray) (algorithm : String) : Except MErr NDArray :=
  if algorithm = "nearest_neighbor" then demosaic_nearest_neighbor cfa
  else if algorithm = "bilinear" then .ok (demosaic_bilinear cfa)
  else if algorithm = "malvar_he_cutler" then .ok (demosaic_malvar_he_cutler cfa)
  else .error .unknownAlgorithm

/-! ### `mosaic_format.py`

Byte strings are modelled as lists of naturals below 256.  The external
JPEG codec (PIL) is treated as an injected capability: `encode_mosaic`
takes an abstract `compress` function and `decode_mosaic` an abstract
`decompress` function. -/

/-- One entry of the (implicit) zlib CRC-32 table: the CRC state after
feeding the single byte `i` into a zero register, i.e. eight steps of
the reflected polynomial `0xEDB88320`. -/
def crc32_table_entry (i : Nat) : Nat :=
  (List.range 8).foldl
    (fun c _ => if c % 2 = 1 then (c >>> 1) ^^^ 0xEDB88320 else c >>> 1) i

/-- One byte step of the zlib CRC-32 register update. -/
def crc32_update (c b : Nat) : Nat :=
  (c >>> 8) ^^^ crc32_table_entry ((c ^^^ b) &&& 255)

/-- `zlib.crc32`: register initialised to `0xFFFFFFFF`, one table-driven
step per byte, final complement. -/
def crc32 (data : List Nat) : Nat :=
  (data.foldl crc32_update 0xFFFFFFFF) ^^^ 0xFFFFFFFF

/-- The high bytes (`>>> 24`) of the 256 CRC-32 table entries, listed in
order.  They are pairwise distinct, which is what makes one CRC-32 byte
step injective in the input byte and in the register state. -/
def tableTops : List Nat :=
  [0, 119, 238, 153, 7, 112, 233, 158, 14, 121, 224, 151, 9, 126, 231,
   144, 29, 106, 243, 132, 26, 109, 244, 131, 19, 100, 253, 138, 20, 99,
   250, 141, 59, 76, 213, 162, 60, 75, 210, 165, 53, 66, 219, 172, 50,
   69, 220, 171, 38, 81, 200, 191, 33, 86, 207, 184, 40, 95, 198, 177,
   47, 88, 193, 182, 118, 1, 152, 239, 113, 6, 159, 232, 120, 15, 150,
   225, 127, 8, 145, 230, 107, 28, 133, 242, 108, 27, 130, 245, 101, 18,
   139, 252, 98, 21, 140, 251, 77, 58, 163, 212, 74, 61, 164, 211, 67,
   52, 173, 218, 68, 51, 170, 221, 80, 39, 190, 201, 87, 32, 185, 206,
   94, 41, 176, 199, 89, 46, 183, 192, 237, 154, 3, 116, 234, 157, 4,
   115, 227, 148, 13, 122, 228, 147, 10, 125, 240, 135, 30, 105, 247,
   128, 25, 110, 254, 137, 16, 103, 249, 142, 23, 96, 214, 161, 56, 79,
   209, 166, 63, 72, 216, 175, 54, 65, 223, 168, 49, 70, 203, 188, 37,
   82, 204, 187, 34, 85, 197, 178, 43, 92, 194, 181, 44, 91, 155, 236,
   117, 2, 156, 235, 114, 5, 149, 226, 123, 12, 146, 229, 124, 11, 134,
   241, 104, 31, 129, 246, 111, 24, 136, 255, 102, 17, 143, 248, 97, 22,
   160, 215, 78, 57, 167, 208, 73, 62, 174, 217, 64, 55, 169, 222, 71,
   48, 189, 202, 83, 36, 186, 205, 84, 35, 179, 196, 93, 42, 180, 195,
   90, 45]

/-- The two little-endian bytes of a `uint16` (`struct` format `H`). -/
def le16 (n : Nat) : List Nat := [n % 256, n / 256 % 256]

/-- The four little-endian bytes of a `uint32` (`struct` format `I`). -/
def le32 (n : Nat) : List Nat :=
  [n % 256, n / 256 % 256, n / 65536 % 256, n / 16777216 % 256]

/-- `MOSAIC_MAGIC = MOSA` (mosaic_format.py:24). -/
def MOSAIC_MAGIC : List Nat := [77, 79, 83, 65]

/-- `MOSAIC_VERSION = 0x01` (mosaic_format.py:25). -/
def MOSAIC_VERSION : Nat := 1

/-- `HEADER_SIZE = 20` (mosaic_format.py:26). -/
def HEADER_SIZE : Nat := 20

/-- The Python method `str.upper` (ASCII range, which covers every pattern
name): uppercase each character. -/
def strUpper (s : String) : String := ⟨s.data.map Char.toUpper⟩

/-- The `BAYER_PATTERNS` dict (mosaic_format.py:28-33) as a partial
lookup. -/
def bayerPatternId (p : String) : Option Nat :=
  if p = "RGGB" then some 0
  else if p = "BGGR" then some 1
  else if p = "GRBG" then some 2
  else if p = "GBRG" then some 3
  else none

/-- `PATTERN_NAMES.get(pattern_id, RGGB)` (mosaic_format.py:35,146,183):
the inverse lookup with the RGGB default for unrecognized ids. -/
def patternNameD (i : Nat) : String :=
  if i = 0 then "RGGB"
  else if i = 1 then "BGGR"
  else if i = 2 then "GRBG"
  else if i = 3 then "GBRG"
  else "RGGB"

/-- `struct.pack` with format <4sBBHHBBII (mosaic_format.py:79-90): the
20-byte little-endian header.  All numeric arguments are within their
field ranges at the call site (`struct.pack` would raise otherwise; the
one field not already guarded by the explicit checks of `encode_mosaic`, the
payload length, is guarded by `structRangeError` below). -/
def packHeader (version patternId width height quality reserved jpegLen
    crc : Nat) : List Nat :=
  MOSAIC_MAGIC ++ [version, patternId] ++ le16 width ++ le16 height ++
    [quality, reserved] ++ le32 jpegLen ++ le32 crc

/-- `encode_mosaic` (mosaic_format.py:38-92) with the JPEG compressor
abstracted as `compress`. -/
def encode_mosaic (compress : NDArray → Nat → List Nat) (cfa : NDArray)
    (pattern : String) (quality : Nat) : Except MErr (List Nat) :=
  if cfa.shape.length ≠ 2 then .error .invalidShape
  else if ¬ (1 ≤ quality ∧ quality ≤ 100) then .error .invalidQuality
  else
    let height := cfa.shape.getD 0 0
    let width := cfa.shape.getD 1 0
    if width > 65535 ∨ height > 65535 then .error .dimensionTooLarge
    else
      let jpegData := compress cfa quality
      if 2 ^ 32 ≤ jpegData.length then .error .structRangeError
      else
        let crc := crc32 jpegData &&& 0xFFFFFFFF
        let patternId := (bayerPatternId (strUpper pattern)).getD 0
        .ok (packHeader MOSAIC_VERSION patternId width height quality 0
          jpegData.length crc ++ jpegData)

/-- Read a little-endian `uint16` at a byte offset (`struct.unpack`
format `H`). -/
def readU16 (d : List Nat) (off : Nat) : Nat :=
  d.getD off 0 + 256 * d.getD (off + 1) 0

/-- Read a little-endian `uint32` at a byte offset (`struct.unpack`
format `I`). -/
def readU32 (d : List Nat) (off : Nat) : Nat :=
  d.getD off 0 + 256 * d.getD (off + 1) 0 + 65536 * d.getD (off + 2) 0 +
    16777216 * d.getD (off + 3) 0

/-- The metadata dict returned by `decode_mosaic`
(mosaic_format.py:148-154). -/
structure MosaicMeta where
  version : Nat
  width : Nat
  height : Nat
  quality : Nat
  jpegSize : Nat
  deriving DecidableEq, Repr

/-- The metadata dict returned by `get_mosaic_info`
(mosaic_format.py:181-189). -/
structure MosaicInfo where
  version : Nat
  pattern : String
  width : Nat
  height : Nat
  quality : Nat
  compressedSize : Nat
  totalSize : Nat
  deriving DecidableEq, Repr

/-- `decode_mosaic` (mosaic_format.py:95-156) with the JPEG decompressor
abstracted as `decompress` (`none` models a decompression failure). -/
def decode_mosaic (decompress : List Nat → Option NDArray)
    (data : List Nat) : Except MErr (NDArray × String × MosaicMeta) :=
  if data.length < HEADER_SIZE then .error .tooSmall
  else if data.take 4 ≠ MOSAIC_MAGIC then .error .badMagic
  else
    let version := data.getD 4 0
    let patternId := data.getD 5 0
    let width := readU16 data 6
    let height := readU16 data 8
    let quality := data.getD 10 0
    let jpegLen := readU32 data 12
    let storedCrc := readU32 data 16
    if version ≠ MOSAIC_VERSION then .error .unsupportedVersion
    else if data.length < HEADER_SIZE + jpegLen then .error .truncated
    else
      let jpegData := (data.drop HEADER_SIZE).take jpegLen
      if crc32 jpegData &&& 0xFFFFFFFF ≠ storedCrc then
        .error .checksumMismatch
      else
        match decompress jpegData with
        | none => .error .codecFailure
        | some cfa =>
          .ok (cfa, patternNameD patternId,
            { version := version, width := width, height := height,
              quality := quality, jpegSize := jpegLen })

/-- `get_mosaic_info` (mosaic_format.py:159-189): header introspection.
It checks the size and the magic, then unpacks and reports the header
fields; the source performs no version check here and never touches the
payload. -/
def get_mosaic_info (data : List Nat) : Except MErr MosaicInfo :=
  if data.length < HEADER_SIZE then .error .tooSmall
  else if data.take 4 ≠ MOSAIC_MAGIC then .error .badMagic
  else
    .ok { version := data.getD 4 0,
          pattern := patternNameD (data.getD 5 0),
          width := readU16 data 6,
          height := readU16 data 8,
          quality := data.getD 10 0,
          compressedSize := readU32 data 12,
          totalSize := HEADER_SIZE + readU32 data 12 }

/-! ### `metrics.py` -/

/-- All index tuples of a shape, in row-major order (the domain that
`np.mean` aggregates over). -/
def allIdx : List Nat → List (List Nat)
  | [] => [[]]
  | n :: rest => (List.range n).flatMap fun i => (allIdx rest).map (i :: ·)

/-- `np.mean((original - reconstructed) ** 2)` (metrics.py:28), computed
exactly over the rationals. -/
def mse (a b : NDArray) : ℚ :=
  (((allIdx a.shape).map
    fun idx => ((a.data idx : ℚ) - (b.data idx : ℚ)) ^ 2).sum) /
    (a.shape.prod : ℚ)

/-- `round(x, 2)`: round to two decimal places. -/
noncomputable def round2 (x : ℝ) : ℝ := (round (x * 100) : ℤ) / 100

/-- `calculate_psnr` (metrics.py:6-36), with `none` standing for the
`float(inf)` return and the finite branch idealised over the reals:
`20·log10(255/√MSE)` rounded to two decimals. -/
noncomputable def calculate_psnr (a b : NDArray) : Option ℝ :=
  if mse a b = 0 then none
  else some (round2 (20 * Real.logb 10 (255 / Real.sqrt (mse a b : ℝ))))

/-- A small 2×2×3 RGB image with distinct per-pixel-per-channel values,
used to instantiate the universally quantified theorems. -/
def demoImg : NDArray :=
  { shape := [2, 2, 3],
    data := fun idx => idx.getD 0 0 * 16 + idx.getD 1 0 * 4 + idx.getD 2 0 }

/-- A 2×2×3 all-zero image, compared against `demoImg` in the metric
theorems. -/
def demoImgZero : NDArray := { shape := [2, 2, 3], data := fun _ => 0 }

/-- A 1×1 CFA grid, on which the nearest-neighbor edge replication
indexes out of bounds. -/
def oneByOneCfa : NDArray := { shape := [1, 1], data := fun _ => 5 }

/-- A 4×4 CFA grid used to instantiate the demosaicing theorems. -/
def demoCfa : NDArray :=
  { shape := [4, 4], data := fun idx => idx.getD 0 0 * 4 + idx.getD 1 0 }

/-- The 10×10 all-128 CFA of the concrete container scenario of the spec. -/
def cfa10 : NDArray := { shape := [10, 10], data := fun _ => 128 }

/-- A stub compressor producing a fixed 3-byte payload, used to
instantiate theorems that quantify over the injected codec. -/
def compressStub : NDArray → Nat → List Nat := fun _ _ => [10, 20, 30]

/-- A stub decompressor returning a fixed 2×2 grid regardless of its
input, used to instantiate theorems that quantify over the injected
codec. -/
def decompressStub : List Nat → Option NDArray :=
  fun _ => some { shape := [2, 2], data := fun _ => 7 }

/-- A 20-byte input with a valid magic but version byte 2. -/
def badVersionHeader : List Nat := MOSAIC_MAGIC ++ [2] ++ List.replicate 15 0

end Mosaique

namespace Mosaique

lemma packHeader_length (v pid w h q r len crc : Nat) :
    (packHeader v pid w h q r len crc).length = 20 := by
  simp [packHeader, le16, le32, MOSAIC_MAGIC]

/-- The packed header followed by a payload, flattened to an explicit
byte list. -/
lemma packHeader_append_eq (v pid w h q r len crc : Nat)
    (rest : List Nat) :
    packHeader v pid w h q r len crc ++ rest =
      77 :: 79 :: 83 :: 65 :: v :: pid ::
      (w % 256) :: (w / 256 % 256) :: (h % 256) :: (h / 256 % 256) ::
      q :: r ::
      (len % 256) :: (len / 256 % 256) :: (len / 65536 % 256) ::
      (len / 16777216 % 256) ::
      (crc % 256) :: (crc / 256 % 256) :: (crc / 65536 % 256) ::
      (crc / 16777216 % 256) :: rest := by
  simp [packHeader, MOSAIC_MAGIC, le16, le32]

lemma get_mosaic_info_packHeader (v pid w h q r len crc : Nat)
    (rest : List Nat) (hw : w ≤ 65535) (hh : h ≤ 65535)
    (hlen : len < 4294967296) :
    get_mosaic_info (packHeader v pid w h q r len crc ++ rest) =
      .ok { version := v, pattern := patternNameD pid, width := w,
            height := h, quality := q, compressedSize := len,
            totalSize := 20 + len } := by
  rw [packHeader_append_eq]
  rw [get_mosaic_info]
  rw [if_neg (by simp [HEADER_SIZE])]
  rw [if_neg (by simp [MOSAIC_MAGIC])]
  simp only [readU16, readU32, HEADER_SIZE, List.getD_cons_zero,
    List.getD_cons_succ, Except.ok.injEq, MosaicInfo.mk.injEq,
    eq_self_iff_true, true_and, and_true]
  omega

lemma decode_mosaic_packHeader (decompress : List Nat → Option NDArray)
    (pid w h q len crc : Nat) (payload : List Nat)
    (hplen : payload.length = len) (hw : w ≤ 65535) (hh : h ≤ 65535)
    (hlen : len < 4294967296) (hcrc : crc < 4294967296) :
    decode_mosaic decompress (packHeader 1 pid w h q 0 len crc ++ payload) =
      if crc32 payload &&& 0xFFFFFFFF ≠ crc then .error .checksumMismatch
      else
        match decompress payload with
        | none => .error .codecFailure
        | some cfa =>
          .ok (cfa, patternNameD pid,
            { version := 1, width := w, height := h, quality := q,
              jpegSize := len }) := by
  rw [packHeader_append_eq]
  rw [decode_mosaic]
  rw [if_neg (by simp [HEADER_SIZE])]
  rw [if_neg (by simp [MOSAIC_MAGIC])]
  simp only [readU16, readU32, HEADER_SIZE, List.getD_cons_zero,
    List.getD_cons_succ]
  rw [if_neg (by simp [MOSAIC_VERSION])]
  have hjl : len % 256 + 256 * (len / 256 % 256) +
      65536 * (len / 65536 % 256) + 16777216 * (len / 16777216 % 256) =
      len := by omega
  have hcr : crc % 256 + 256 * (crc / 256 % 256) +
      65536 * (crc / 65536 % 256) + 16777216 * (crc / 16777216 % 256) =
      crc := by omega
  rw [if_neg (by simp [hjl]; omega)]
  simp only [hjl, hcr, List.drop_succ_cons, List.drop_zero]
  rw [← hplen, List.take_length]
  have hwv : w % 256 + 256 * (w / 256 % 256) = w := by omega
  have hhv : h % 256 + 256 * (h / 256 % 256) = h := by omega
  rw [hwv, hhv, hplen]

/-! CRC-32 facts.  A single CRC-32 byte step
`c ↦ (c >>> 8) ^^^ table[(c ^^^ b) &&& 255]` is injective in the input
byte `b` and in the register state `c` (for states below `2^32`),
because the 256 table entries have pairwise distinct high bytes.
Consequently two byte strings that differ in exactly one byte have
different CRC-32 checksums. -/

set_option maxRecDepth 10000 in
lemma crc32_tops_eq :
    (List.range 256).map (fun i => crc32_table_entry i >>> 24) =
      tableTops := by decide

set_option maxRecDepth 10000 in
lemma crc32_tops_nodup : tableTops.Nodup := by decide

set_option maxRecDepth 10000 in
lemma crc32_table_lt : ∀ i, i < 256 → crc32_table_entry i < 4294967296 := by
  decide

lemma xor_lt_32 {x y : Nat} (hx : x < 4294967296) (hy : y < 4294967296) :
    x ^^^ y < 4294967296 := by
  have h : (2 : Nat) ^ 32 = 4294967296 := by norm_num
  rw [← h] at hx hy ⊢
  exact Nat.xor_lt_two_pow hx hy

lemma and255_eq_mod (x : Nat) : x &&& 255 = x % 256 := by
  have h := Nat.and_pow_two_sub_one_eq_mod x 8
  norm_num at h
  exact h

lemma and_mask32_eq {x : Nat} (h : x < 4294967296) :
    x &&& 0xFFFFFFFF = x := by
  have h2 := Nat.and_pow_two_sub_one_eq_mod x 32
  norm_num at h2
  rw [h2]
  exact Nat.mod_eq_of_lt h

lemma shiftRight_xor_distrib (x y k : Nat) :
    (x ^^^ y) >>> k = x >>> k ^^^ y >>> k := by
  apply Nat.eq_of_testBit_eq
  intro i
  simp [Nat.testBit_shiftRight, Nat.testBit_xor]

lemma xor_cancel_left {a b c : Nat} (h : a ^^^ b = a ^^^ c) : b = c := by
  have h2 := congrArg (a ^^^ ·) h
  simpa [← Nat.xor_assoc, Nat.xor_self] using h2

lemma xor_cancel_right {a b c : Nat} (h : a ^^^ c = b ^^^ c) : a = b := by
  have h2 := congrArg (· ^^^ c) h
  simpa [Nat.xor_assoc, Nat.xor_self] using h2

lemma crc32_table_topbyte_inj {i j : Nat} (hi : i < 256) (hj : j < 256)
    (h : crc32_table_entry i >>> 24 = crc32_table_entry j >>> 24) :
    i = j := by
  have hnd : ((List.range 256).map
      fun k => crc32_table_entry k >>> 24).Nodup := by
    rw [crc32_tops_eq]
    exact crc32_tops_nodup
  have hlen : ((List.range 256).map
      fun k => crc32_table_entry k >>> 24).length = 256 := by simp
  have hgi : ((List.range 256).map
      fun k => crc32_table_entry k >>> 24).get ⟨i, by rw [hlen]; exact hi⟩ =
      crc32_table_entry i >>> 24 := by simp
  have hgj : ((List.range 256).map
      fun k => crc32_table_entry k >>> 24).get ⟨j, by rw [hlen]; exact hj⟩ =
      crc32_table_entry j >>> 24 := by simp
  have hfin : (⟨i, by rw [hlen]; exact hi⟩ :
      Fin ((List.range 256).map
        fun k => crc32_table_entry k >>> 24).length) =
      ⟨j, by rw [hlen]; exact hj⟩ := by
    apply (List.Nodup.get_inj_iff hnd).mp
    rw [hgi, hgj]
    exact h
  exact congrArg Fin.val hfin

lemma and255_lt (x : Nat) : x &&& 255 < 256 := by
  rw [and255_eq_mod]
  omega

lemma crc32_update_inj_byte {c b1 b2 : Nat} (hb1 : b1 < 256)
    (hb2 : b2 < 256) (hne : b1 ≠ b2) :
    crc32_update c b1 ≠ crc32_update c b2 := by
  intro he
  rw [crc32_update, crc32_update] at he
  have hT := xor_cancel_left he
  have hidx := crc32_table_topbyte_inj (and255_lt _) (and255_lt _)
    (congrArg (· >>> 24) hT)
  rw [Nat.and_xor_distrib_right, Nat.and_xor_distrib_right] at hidx
  have hb1e : b1 &&& 255 = b1 := by
    rw [and255_eq_mod]; exact Nat.mod_eq_of_lt hb1
  have hb2e : b2 &&& 255 = b2 := by
    rw [and255_eq_mod]; exact Nat.mod_eq_of_lt hb2
  rw [hb1e, hb2e] at hidx
  exact hne (xor_cancel_left hidx)

lemma crc32_update_inj_state {c1 c2 : Nat} (h1 : c1 < 4294967296)
    (h2 : c2 < 4294967296) (hne : c1 ≠ c2) (b : Nat) :
    crc32_update c1 b ≠ crc32_update c2 b := by
  intro he
  rw [crc32_update, crc32_update] at he
  by_cases hlow : c1 &&& 255 = c2 &&& 255
  · have hi : (c1 ^^^ b) &&& 255 = (c2 ^^^ b) &&& 255 := by
      rw [Nat.and_xor_distrib_right, Nat.and_xor_distrib_right, hlow]
    rw [hi] at he
    have hs : c1 >>> 8 = c2 >>> 8 := xor_cancel_right he
    apply hne
    rw [Nat.shiftRight_eq_div_pow] at hs
    rw [and255_eq_mod, and255_eq_mod] at hlow
    norm_num at hs
    omega
  · have htop := congrArg (· >>> 24) he
    simp only [shiftRight_xor_distrib] at htop
    have hz1 : (c1 >>> 8) >>> 24 = 0 := by
      simp only [Nat.shiftRight_eq_div_pow]
      norm_num
      omega
    have hz2 : (c2 >>> 8) >>> 24 = 0 := by
      simp only [Nat.shiftRight_eq_div_pow]
      norm_num
      omega
    rw [hz1, hz2, Nat.zero_xor, Nat.zero_xor] at htop
    have hij := crc32_table_topbyte_inj (and255_lt _) (and255_lt _) htop
    rw [Nat.and_xor_distrib_right, Nat.and_xor_distrib_right] at hij
    exact hlow (xor_cancel_right hij)

lemma crc32_update_lt {c : Nat} (hc : c < 4294967296) (b : Nat) :
    crc32_update c b < 4294967296 := by
  rw [crc32_update]
  apply xor_lt_32
  · rw [Nat.shiftRight_eq_div_pow]
    norm_num
    omega
  · exact crc32_table_lt _ (and255_lt _)

lemma crc32_foldl_lt (l : List Nat) : ∀ c, c < 4294967296 →
    l.foldl crc32_update c < 4294967296 := by
  induction l with
  | nil => intro c hc; simpa using hc
  | cons x t ih => intro c hc; exact ih _ (crc32_update_lt hc x)

lemma crc32_foldl_inj (l : List Nat) : ∀ c1 c2, c1 < 4294967296 →
    c2 < 4294967296 → c1 ≠ c2 →
    l.foldl crc32_update c1 ≠ l.foldl crc32_update c2 := by
  induction l with
  | nil => intro c1 c2 _ _ hne; simpa using hne
  | cons x t ih =>
    intro c1 c2 h1 h2 hne
    exact ih _ _ (crc32_update_lt h1 x) (crc32_update_lt h2 x)
      (crc32_update_inj_state h1 h2 hne x)

lemma crc32_lt (l : List Nat) : crc32 l < 4294967296 := by
  rw [crc32]
  exact xor_lt_32 (crc32_foldl_lt l _ (by norm_num)) (by norm_num)

/-- Two byte strings differing in exactly one byte have different
CRC-32 checksums. -/
lemma crc32_single_byte_ne (p s : List Nat) {b1 b2 : Nat}
    (hb1 : b1 < 256) (hb2 : b2 < 256) (hne : b1 ≠ b2) :
    crc32 (p ++ b1 :: s) ≠ crc32 (p ++ b2 :: s) := by
  rw [crc32, crc32, List.foldl_append, List.foldl_append,
    List.foldl_cons, List.foldl_cons]
  intro h
  have h2 := xor_cancel_right h
  have hc : p.foldl crc32_update 0xFFFFFFFF < 4294967296 :=
    crc32_foldl_lt p _ (by norm_num)
  exact crc32_foldl_inj s _ _ (crc32_update_lt hc b1)
    (crc32_update_lt hc b2) (crc32_update_inj_byte hb1 hb2 hne) h2

lemma set_append_right {α : Type} (l1 l2 : List α) (n : Nat) (a : α) :
    (l1 ++ l2).set (l1.length + n) a = l1 ++ l2.set n a := by
  induction l1 with
  | nil => simp
  | cons x t ih =>
    simp only [List.cons_append, List.length_cons]
    rw [show t.length + 1 + n = (t.length + n) + 1 by omega]
    simp [List.set, ih]

lemma encode_mosaic_eq_ok (compress : NDArray → Nat → List Nat)
    (cfa : NDArray) (p : String) (q h w : Nat) (hs : cfa.shape = [h, w])
    (hq1 : 1 ≤ q) (hq2 : q ≤ 100) (hh : h ≤ 65535) (hw : w ≤ 65535)
    (hlen : (compress cfa q).length < 4294967296) :
    encode_mosaic compress cfa p q =
      .ok (packHeader MOSAIC_VERSION ((bayerPatternId (strUpper p)).getD 0)
        w h q 0 (compress cfa q).length
        (crc32 (compress cfa q) &&& 0xFFFFFFFF) ++ compress cfa q) := by
  rw [encode_mosaic]
  rw [if_neg (by simp [hs])]
  rw [if_neg (not_not_intro ⟨hq1, hq2⟩)]
  simp only [hs, List.getD_cons_zero, List.getD_cons_succ]
  rw [if_neg (by omega)]
  rw [if_neg (by
    simp only [show (2 : Nat) ^ 32 = 4294967296 from by norm_num]
    omega)]

/-- `get_mosaic_info` reads only the first 20 bytes of its input: it
never touches (let alone decompresses) the payload. -/
lemma get_mosaic_info_take20 (d₁ d₂ : List Nat) (h1 : 20 ≤ d₁.length)
    (h2 : 20 ≤ d₂.length) (ht : d₁.take 20 = d₂.take 20) :
    get_mosaic_info d₁ = get_mosaic_info d₂ := by
  have hgd : ∀ k, k < 20 → d₁.getD k 0 = d₂.getD k 0 := by
    intro k hk
    have e1 : d₁.getD k 0 = (d₁.take 20).getD k 0 := by
      simp [List.getD_eq_getElem?_getD, List.getElem?_take, hk]
    have e2 : d₂.getD k 0 = (d₂.take 20).getD k 0 := by
      simp [List.getD_eq_getElem?_getD, List.getElem?_take, hk]
    rw [e1, e2, ht]
  have h4 : d₁.take 4 = d₂.take 4 := by
    have := congrArg (List.take 4) ht
    simpa [List.take_take] using this
  rw [get_mosaic_info, get_mosaic_info]
  simp only [HEADER_SIZE]
  rw [if_neg (show ¬ d₁.length < 20 by omega)]
  rw [if_neg (show ¬ d₂.length < 20 by omega)]
  by_cases hm : d₁.take 4 = MOSAIC_MAGIC
  · have hm2 : d₂.take 4 = MOSAIC_MAGIC := by rw [← h4]; exact hm
    rw [if_neg (not_not_intro hm)]
    rw [if_neg (not_not_intro hm2)]
    simp only [readU16, readU32, Except.ok.injEq, MosaicInfo.mk.injEq]
    refine ⟨hgd 4 (by omega), by rw [hgd 5 (by omega)],
      by rw [hgd 6 (by omega), hgd 7 (by omega)],
      by rw [hgd 8 (by omega), hgd 9 (by omega)],
      hgd 10 (by omega),
      by rw [hgd 12 (by omega), hgd 13 (by omega), hgd 14 (by omega),
        hgd 15 (by omega)],
      by rw [hgd 12 (by omega), hgd 13 (by omega), hgd 14 (by omega),
        hgd 15 (by omega)]⟩
  · have hm2 : d₂.take 4 ≠ MOSAIC_MAGIC := by rw [← h4]; exact hm
    rw [if_pos hm, if_pos hm2]

/-- C1: for every RGB image of shape H×W×3 under the RGGB pattern,
`apply_bayer_mosaic` succeeds with an H×W grid whose value at each
position is the channel of the image selected by the RGGB parity rule
(R at even/even, G at mixed parity, B at odd/odd), and it fails with
`InvalidShape` on any input that is not a 3-channel 2D grid. -/
theorem C1_sample_rggb_parity :
    (∀ (a : NDArray) (h w : Nat), a.shape = [h, w, 3] →
      ∃ cfa, apply_bayer_mosaic a = .ok cfa ∧ cfa.shape = [h, w] ∧
        ∀ i j, i < h → j < w →
          cfa.data [i, j] = a.data [i, j, rggbChannel i j]) ∧
    (∀ a : NDArray, ¬ (a.shape.length = 3 ∧ a.shape.getD 2 0 = 3) →
      apply_bayer_mosaic a = .error .invalidShape) := by
  constructor
  · intro a h w hs
    have hcond : ¬ (a.shape.length ≠ 3 ∨ a.shape.getD 2 0 ≠ 3) := by simp [hs]
    refine ⟨_, by rw [apply_bayer_mosaic, if_neg hcond], by simp [hs], ?_⟩
    intro i j _ _
    rcases Nat.mod_two_eq_zero_or_one i with hi | hi <;>
      rcases Nat.mod_two_eq_zero_or_one j with hj | hj <;>
        simp [bayerCfaData, rggbChannel, hi, hj]
  · intro a ha
    have hcond : a.shape.length ≠ 3 ∨ a.shape.getD 2 0 ≠ 3 := by
      by_contra hc
      push_neg at hc
      exact ha hc
    rw [apply_bayer_mosaic, if_pos hcond]

/-- Closed instantiation of `C1_sample_rggb_parity` on a concrete 2×2×3
image and on a concrete wrongly shaped input. -/
theorem C1_sample_rggb_parity_witness :
    (demoImg.shape = [2, 2, 3] ∧
      ∃ cfa, apply_bayer_mosaic demoImg = .ok cfa ∧ cfa.shape = [2, 2] ∧
        ∀ i j, i < 2 → j < 2 →
          cfa.data [i, j] = demoImg.data [i, j, rggbChannel i j]) ∧
    apply_bayer_mosaic { shape := [2, 2], data := fun _ => 0 } =
      .error .invalidShape :=
  ⟨⟨rfl, C1_sample_rggb_parity.1 demoImg 2 2 rfl⟩,
   C1_sample_rggb_parity.2 _ (by decide)⟩

/-- C2: the mask generator (which implements the RGGB pattern and, in the
source, takes no pattern argument) partitions every position into exactly
one of R, G, B. -/
theorem C2_masks_partition (h w i j : Nat) (hi : i < h) (hj : j < w) :
    ((get_bayer_masks h w).1 i j = true ∧
      (get_bayer_masks h w).2.1 i j = false ∧
      (get_bayer_masks h w).2.2 i j = false) ∨
    ((get_bayer_masks h w).1 i j = false ∧
      (get_bayer_masks h w).2.1 i j = true ∧
      (get_bayer_masks h w).2.2 i j = false) ∨
    ((get_bayer_masks h w).1 i j = false ∧
      (get_bayer_masks h w).2.1 i j = false ∧
      (get_bayer_masks h w).2.2 i j = true) := by
  rcases Nat.mod_two_eq_zero_or_one i with hpi | hpi <;>
    rcases Nat.mod_two_eq_zero_or_one j with hpj | hpj <;>
      simp [get_bayer_masks, hpi, hpj]

/-- Closed instantiation of `C2_masks_partition` at a concrete size and
position. -/
theorem C2_masks_partition_witness :
    ((get_bayer_masks 2 2).1 0 1 = true ∧
      (get_bayer_masks 2 2).2.1 0 1 = false ∧
      (get_bayer_masks 2 2).2.2 0 1 = false) ∨
    ((get_bayer_masks 2 2).1 0 1 = false ∧
      (get_bayer_masks 2 2).2.1 0 1 = true ∧
      (get_bayer_masks 2 2).2.2 0 1 = false) ∨
    ((get_bayer_masks 2 2).1 0 1 = false ∧
      (get_bayer_masks 2 2).2.1 0 1 = false ∧
      (get_bayer_masks 2 2).2.2 0 1 = true) :=
  C2_masks_partition 2 2 0 1 (by decide) (by decide)

/-- C9: sampling followed by the colorized visualization reproduces, at
every position, the original value in the channel designated by the RGGB
parity rule, and zero in the other two channels. -/
theorem C9_sample_visualize (a : NDArray) (h w : Nat)
    (hs : a.shape = [h, w, 3]) :
    ∃ cfa, apply_bayer_mosaic a = .ok cfa ∧
      ∀ i j, i < h → j < w →
        (generate_colorized_view cfa).data [i, j, rggbChannel i j] =
          a.data [i, j, rggbChannel i j] ∧
        ∀ c, c < 3 → c ≠ rggbChannel i j →
          (generate_colorized_view cfa).data [i, j, c] = 0 := by
  have hcond : ¬ (a.shape.length ≠ 3 ∨ a.shape.getD 2 0 ≠ 3) := by simp [hs]
  refine ⟨_, by rw [apply_bayer_mosaic, if_neg hcond], ?_⟩
  intro i j _ _
  constructor
  · rcases Nat.mod_two_eq_zero_or_one i with hpi | hpi <;>
      rcases Nat.mod_two_eq_zero_or_one j with hpj | hpj <;>
        simp [generate_colorized_view, colorizedData, bayerCfaData,
          rggbChannel, hpi, hpj]
  · intro c hc hcne
    interval_cases c <;>
      rcases Nat.mod_two_eq_zero_or_one i with hpi | hpi <;>
        rcases Nat.mod_two_eq_zero_or_one j with hpj | hpj <;>
          simp_all [generate_colorized_view, colorizedData, rggbChannel,
            hpi, hpj]

/-- C3 (amended): for every CFA grid of shape H×W with H ≥ 2 and W ≥ 2
and every algorithm identifier in the closed set, `demosaic` returns an
image of shape H×W×3; for any identifier outside the set it fails with
`UnknownAlgorithm`.  (The restriction H, W ≥ 2 is forced by
`C3_demosaic_shape_counterexample`.) -/
theorem C3_demosaic_shape :
    (∀ (cfa : NDArray) (h w : Nat) (alg : String), cfa.shape = [h, w] →
      2 ≤ h → 2 ≤ w →
      alg ∈ ["nearest_neighbor", "bilinear", "malvar_he_cutler"] →
      ∃ out, demosaic cfa alg = .ok out ∧ out.shape = [h, w, 3]) ∧
    (∀ (cfa : NDArray) (alg : String),
      alg ∉ ["nearest_neighbor", "bilinear", "malvar_he_cutler"] →
      demosaic cfa alg = .error .unknownAlgorithm) := by
  constructor
  · intro cfa h w alg hs hh hw halg
    have hh1 : ¬ (h % 2 = 1 ∧ h < 2) := by omega
    have hw1 : ¬ (w % 2 = 1 ∧ w < 2) := by omega
    simp only [List.mem_cons, List.mem_singleton, List.not_mem_nil,
      or_false] at halg
    rcases halg with rfl | rfl | rfl
    · simp only [demosaic, reduceIte, demosaic_nearest_neighbor, hs,
        List.getD_cons_zero, List.getD_cons_succ, if_neg hh1, if_neg hw1]
      exact ⟨_, rfl, rfl⟩
    · simp only [demosaic, reduceIte]
      exact ⟨_, rfl, by simp [demosaic_bilinear, hs]⟩
    · simp only [demosaic, reduceIte]
      exact ⟨_, rfl, by simp [demosaic_malvar_he_cutler, hs]⟩
  · intro cfa alg halg
    simp only [List.mem_cons, List.mem_singleton, List.not_mem_nil,
      or_false, not_or] at halg
    rw [demosaic, if_neg halg.1, if_neg halg.2.1, if_neg halg.2.2]

/-- Closed instantiation of `C3_demosaic_shape` on a concrete 4×4 CFA
and a concrete unknown algorithm identifier. -/
theorem C3_demosaic_shape_witness :
    (demoCfa.shape = [4, 4] ∧ (2 : Nat) ≤ 4 ∧
      "nearest_neighbor" ∈ ["nearest_neighbor", "bilinear", "malvar_he_cutler"] ∧
      ∃ out, demosaic demoCfa "nearest_neighbor" = .ok out ∧
        out.shape = [4, 4, 3]) ∧
    demosaic demoCfa "unsharp" = .error .unknownAlgorithm :=
  ⟨⟨rfl, by decide, by decide,
    C3_demosaic_shape.1 demoCfa 4 4 "nearest_neighbor" rfl (by decide)
      (by decide) (by decide)⟩,
   C3_demosaic_shape.2 demoCfa "unsharp" (by decide)⟩

/-- C3 counterexample: on a 1×1 CFA grid the nearest-neighbor path does
not return a 1×1×3 image; the trailing-row replication indexes row `-2`
of a single-row array, which raises `IndexError` in numpy. -/
theorem C3_demosaic_shape_counterexample :
    demosaic oneByOneCfa "nearest_neighbor" = .error .indexError := by
  rw [demosaic, if_pos rfl, demosaic_nearest_neighbor]
  norm_num [oneByOneCfa]

/-- C4: for every CFA grid, pattern and quality in `[1, 100]`, changing
exactly one payload byte (any byte at offset ≥ 20) of the encoded
container makes `decode` fail with `ChecksumMismatch`. -/
theorem C4_payload_corruption_checksum_mismatch
    (compress : NDArray → Nat → List Nat)
    (decompress : List Nat → Option NDArray) (cfa : NDArray) (p : String)
    (q h w : Nat) (hs : cfa.shape = [h, w]) (hq1 : 1 ≤ q) (hq2 : q ≤ 100)
    (hh : h ≤ 65535) (hw : w ≤ 65535)
    (hlen : (compress cfa q).length < 4294967296)
    (hbytes : ∀ x ∈ compress cfa q, x < 256)
    (k bNew : Nat) (hk : k < (compress cfa q).length) (hbNew : bNew < 256)
    (hchg : bNew ≠ (compress cfa q).getD k 0)
    (bs : List Nat) (henc : encode_mosaic compress cfa p q = .ok bs) :
    decode_mosaic decompress (bs.set (20 + k) bNew) =
      .error .checksumMismatch := by
  have heq := encode_mosaic_eq_ok compress cfa p q h w hs hq1 hq2 hh hw hlen
  rw [henc] at heq
  injection heq with hbs
  subst hbs
  rw [show (20 : Nat) + k =
    (packHeader MOSAIC_VERSION ((bayerPatternId (strUpper p)).getD 0) w h
      q 0 (compress cfa q).length
      (crc32 (compress cfa q) &&& 0xFFFFFFFF)).length + k
    from by rw [packHeader_length]]
  rw [set_append_right]
  rw [show MOSAIC_VERSION = 1 from rfl]
  rw [decode_mosaic_packHeader decompress
    ((bayerPatternId (strUpper p)).getD 0) w h q (compress cfa q).length
    (crc32 (compress cfa q) &&& 0xFFFFFFFF) ((compress cfa q).set k bNew)
    (by simp) hw hh hlen (Nat.lt_succ_of_le Nat.and_le_right)]
  have hbk : (compress cfa q).getD k 0 < 256 := by
    rw [List.getD_eq_getElem _ 0 hk]
    exact hbytes _ (List.getElem_mem hk)
  have hold : compress cfa q = (compress cfa q).take k ++
      (compress cfa q).getD k 0 :: (compress cfa q).drop (k + 1) := by
    rw [List.getD_eq_getElem _ 0 hk]
    conv_lhs => rw [← List.take_append_drop k (compress cfa q)]
    rw [List.drop_eq_getElem_cons hk]
  have hne2 : crc32 ((compress cfa q).set k bNew) &&& 0xFFFFFFFF ≠
      crc32 (compress cfa q) &&& 0xFFFFFFFF := by
    rw [and_mask32_eq (crc32_lt _), and_mask32_eq (crc32_lt _)]
    rw [List.set_eq_take_cons_drop bNew hk]
    conv_rhs => rw [hold]
    exact crc32_single_byte_ne _ _ hbNew hbk hchg
  rw [if_pos hne2]

/-- Closed instantiation of `C4_payload_corruption_checksum_mismatch`:
a concrete 4×4 CFA encoded with a 3-byte stub payload, with payload
byte 1 (container offset 21) changed from 20 to 99, fails to decode
with `ChecksumMismatch`. -/
theorem C4_payload_corruption_checksum_mismatch_witness :
    decode_mosaic decompressStub
      ((packHeader 1 0 4 4 85 0 3 (crc32 [10, 20, 30] &&& 0xFFFFFFFF) ++
        [10, 20, 30]).set (20 + 1) 99) = .error .checksumMismatch :=
  C4_payload_corruption_checksum_mismatch compressStub decompressStub
    demoCfa "RGGB" 85 4 4 rfl (by decide) (by decide) (by decide)
    (by decide) (by decide) (by decide) 1 99 (by decide) (by decide)
    (by decide) _ rfl

/-- C5 counterexample: `encode_mosaic` with the unknown pattern string
"XXXX" succeeds instead of failing — the source maps an unrecognized
pattern to id 0 via `BAYER_PATTERNS.get(pattern.upper(), 0)`. -/
theorem C5_encode_unknown_pattern_counterexample :
    (encode_mosaic compressStub demoCfa "XXXX" 85).isOk = true := by decide

/-- C5 (amended): `encode_mosaic` does not reject unrecognized pattern
strings; exactly like `inspect` and `decode`, it silently defaults them
to pattern id 0, which `inspect` then reports as "RGGB". -/
theorem C5_encode_unknown_pattern_defaults
    (compress : NDArray → Nat → List Nat) (cfa : NDArray) (p : String)
    (q h w : Nat) (hs : cfa.shape = [h, w]) (hq1 : 1 ≤ q) (hq2 : q ≤ 100)
    (hh : h ≤ 65535) (hw : w ≤ 65535)
    (hlen : (compress cfa q).length < 4294967296)
    (hp : bayerPatternId (strUpper p) = none) :
    ∃ bs, encode_mosaic compress cfa p q = .ok bs ∧ bs.getD 5 0 = 0 ∧
      ∃ info, get_mosaic_info bs = .ok info ∧ info.pattern = "RGGB" := by
  refine ⟨_, encode_mosaic_eq_ok compress cfa p q h w hs hq1 hq2 hh hw hlen,
    ?_, ?_⟩
  · rw [packHeader_append_eq]
    simp [hp]
  · rw [get_mosaic_info_packHeader _ _ _ _ _ _ _ _ _ hw hh hlen]
    exact ⟨_, rfl, by simp [hp, patternNameD]⟩

/-- Closed instantiation of `C5_encode_unknown_pattern_defaults` on a
concrete grid and the unknown pattern string "XXXX". -/
theorem C5_encode_unknown_pattern_defaults_witness :
    ∃ bs, encode_mosaic compressStub demoCfa "XXXX" 85 = .ok bs ∧
      bs.getD 5 0 = 0 ∧
      ∃ info, get_mosaic_info bs = .ok info ∧ info.pattern = "RGGB" :=
  C5_encode_unknown_pattern_defaults compressStub demoCfa "XXXX" 85 4 4
    rfl (by decide) (by decide) (by decide) (by decide) (by decide)
    (by decide)

/-- C6 (amended): `inspect` fails with `TooSmall` on inputs shorter than
20 bytes and with `BadMagic` when the first 4 bytes are not the magic,
and it never reads past the first 20 bytes (so it never touches the
payload) — but, unlike `decode`, it performs no version check: any
version byte is accepted and merely reported. -/
theorem C6_inspect_header_validation :
    (∀ d : List Nat, d.length < 20 → get_mosaic_info d = .error .tooSmall) ∧
    (∀ d : List Nat, 20 ≤ d.length → d.take 4 ≠ MOSAIC_MAGIC →
      get_mosaic_info d = .error .badMagic) ∧
    (∀ d : List Nat, 20 ≤ d.length → d.take 4 = MOSAIC_MAGIC →
      (get_mosaic_info d).isOk = true) ∧
    (∀ d₁ d₂ : List Nat, 20 ≤ d₁.length → 20 ≤ d₂.length →
      d₁.take 20 = d₂.take 20 →
      get_mosaic_info d₁ = get_mosaic_info d₂) := by
  refine ⟨?_, ?_, ?_, get_mosaic_info_take20⟩
  · intro d hd
    rw [get_mosaic_info, if_pos (by simpa [HEADER_SIZE] using hd)]
  · intro d hd hm
    rw [get_mosaic_info, if_neg (by simp [HEADER_SIZE]; omega),
      if_pos hm]
  · intro d hd hm
    rw [get_mosaic_info, if_neg (by simp [HEADER_SIZE]; omega),
      if_neg (not_not_intro hm)]
    rfl

/-- Closed instantiation of `C6_inspect_header_validation` on concrete
inputs for each of its universally quantified conjuncts. -/
theorem C6_inspect_header_validation_witness :
    get_mosaic_info [77, 79] = .error .tooSmall ∧
    get_mosaic_info (List.replicate 20 0) = .error .badMagic ∧
    (get_mosaic_info badVersionHeader).isOk = true ∧
    get_mosaic_info (badVersionHeader ++ [1, 2, 3]) =
      get_mosaic_info (badVersionHeader ++ [9]) :=
  ⟨C6_inspect_header_validation.1 [77, 79] (by decide),
   C6_inspect_header_validation.2.1 (List.replicate 20 0) (by decide)
     (by decide),
   C6_inspect_header_validation.2.2.1 badVersionHeader (by decide)
     (by decide),
   C6_inspect_header_validation.2.2.2 (badVersionHeader ++ [1, 2, 3])
     (badVersionHeader ++ [9]) (by decide) (by decide) (by decide)⟩

/-- C6 counterexample: a 20-byte input with a valid magic and version
byte 2 is accepted by `inspect` (no `UnsupportedVersion`), while
`decode` rejects the very same input with `UnsupportedVersion` — so
`inspect` does not apply the same header validation as `decode`. -/
theorem C6_inspect_header_validation_counterexample :
    (get_mosaic_info badVersionHeader).isOk = true ∧
    decode_mosaic decompressStub badVersionHeader =
      .error .unsupportedVersion :=
  ⟨by decide, rfl⟩

/-- C7: inspecting an encoded container reports the pattern, width,
height and quality that the container was encoded from, and `inspect`
depends only on the 20 header bytes, never on the payload. -/
theorem C7_inspect_encode_roundtrip
    (compress : NDArray → Nat → List Nat) (cfa : NDArray) (p : String)
    (q h w : Nat) (hs : cfa.shape = [h, w])
    (hh : h ≤ 65535) (hw : w ≤ 65535) (hq1 : 1 ≤ q) (hq2 : q ≤ 100)
    (hp : p ∈ ["RGGB", "BGGR", "GRBG", "GBRG"])
    (hlen : (compress cfa q).length < 4294967296) :
    (∃ bs, encode_mosaic compress cfa p q = .ok bs ∧
      ∃ info, get_mosaic_info bs = .ok info ∧
        info.pattern = p ∧ info.width = w ∧ info.height = h ∧
        info.quality = q) ∧
    (∀ d₁ d₂ : List Nat, 20 ≤ d₁.length → 20 ≤ d₂.length →
      d₁.take 20 = d₂.take 20 →
      get_mosaic_info d₁ = get_mosaic_info d₂) := by
  refine ⟨⟨_, encode_mosaic_eq_ok compress cfa p q h w hs hq1 hq2 hh hw hlen,
    ?_⟩, get_mosaic_info_take20⟩
  rw [get_mosaic_info_packHeader _ _ _ _ _ _ _ _ _ hw hh hlen]
  refine ⟨_, rfl, ?_, rfl, rfl, rfl⟩
  simp only [List.mem_cons, List.mem_singleton, List.not_mem_nil,
    or_false] at hp
  rcases hp with rfl | rfl | rfl | rfl
  · exact show patternNameD ((bayerPatternId (strUpper "RGGB")).getD 0) =
      "RGGB" by decide
  · exact show patternNameD ((bayerPatternId (strUpper "BGGR")).getD 0) =
      "BGGR" by decide
  · exact show patternNameD ((bayerPatternId (strUpper "GRBG")).getD 0) =
      "GRBG" by decide
  · exact show patternNameD ((bayerPatternId (strUpper "GBRG")).getD 0) =
      "GBRG" by decide

/-- Closed instantiation of `C7_inspect_encode_roundtrip` on the specified
concrete scenario: a 10×10 all-128 CFA, pattern BGGR, quality 90. -/
theorem C7_inspect_encode_roundtrip_witness :
    (∃ bs, encode_mosaic compressStub cfa10 "BGGR" 90 = .ok bs ∧
      ∃ info, get_mosaic_info bs = .ok info ∧
        info.pattern = "BGGR" ∧ info.width = 10 ∧ info.height = 10 ∧
        info.quality = 90) ∧
    (∀ d₁ d₂ : List Nat, 20 ≤ d₁.length → 20 ≤ d₂.length →
      d₁.take 20 = d₂.take 20 →
      get_mosaic_info d₁ = get_mosaic_info d₂) :=
  C7_inspect_encode_roundtrip compressStub cfa10 "BGGR" 90 10 10 rfl
    (by decide) (by decide) (by decide) (by decide) (by decide) (by decide)

/-- C10: `decode` returns exactly the decompressed payload as the grid
and takes all metadata exclusively from the header; nothing relates the
two, so a well-formed container whose header dimensions disagree with
the decompressed grid still decodes successfully. -/
theorem C10_decode_no_cross_validation
    (decompress : List Nat → Option NDArray) (pid w h q : Nat)
    (payload : List Nat) (g : NDArray)
    (hw : w ≤ 65535) (hh : h ≤ 65535)
    (hlen : payload.length < 4294967296)
    (hdec : decompress payload = some g) :
    decode_mosaic decompress
      (packHeader 1 pid w h q 0 payload.length
        (crc32 payload &&& 0xFFFFFFFF) ++ payload) =
      .ok (g, patternNameD pid,
        { version := 1, width := w, height := h, quality := q,
          jpegSize := payload.length }) := by
  have hcrc : crc32 payload &&& 0xFFFFFFFF < 4294967296 :=
    Nat.lt_succ_of_le Nat.and_le_right
  rw [decode_mosaic_packHeader decompress pid w h q payload.length _
    payload rfl hw hh hlen hcrc]
  rw [if_neg (by simp), hdec]

/-- Closed instantiation of `C10_decode_no_cross_validation`: the header
claims a 5×5 grid while the (stub) decompressor yields a 2×2 grid, and
decoding still succeeds, returning the 2×2 grid next to width = height
= 5 metadata. -/
theorem C10_decode_no_cross_validation_witness :
    decode_mosaic decompressStub
      (packHeader 1 0 5 5 90 0 ([10, 20, 30] : List Nat).length
        (crc32 [10, 20, 30] &&& 0xFFFFFFFF) ++ [10, 20, 30]) =
      .ok ({ shape := [2, 2], data := fun _ => 7 }, patternNameD 0,
        { version := 1, width := 5, height := 5, quality := 90,
          jpegSize := ([10, 20, 30] : List Nat).length }) :=
  C10_decode_no_cross_validation decompressStub 0 5 5 90 [10, 20, 30]
    { shape := [2, 2], data := fun _ => 7 } (by decide) (by decide)
    (by decide) rfl

/-- C8: for same-shape, non-empty images, PSNR is positive infinity
(modelled as `none`) exactly when the mean squared error is zero — in
particular `PSNR(x, x)` is infinite for every x — and otherwise it is
`20·log10(255/√MSE)` rounded to two decimal places. -/
theorem C8_psnr_infinite_iff_mse_zero (a b : NDArray)
    (hsh : a.shape = b.shape) (hne : 0 < a.shape.prod) :
    (calculate_psnr a b = none ↔ mse a b = 0) ∧
    calculate_psnr a a = none ∧
    (mse a b ≠ 0 →
      calculate_psnr a b =
        some (round2 (20 * Real.logb 10 (255 / Real.sqrt (mse a b : ℝ))))) := by
  refine ⟨?_, ?_, ?_⟩
  · by_cases hm : mse a b = 0
    · simp [calculate_psnr, hm]
    · simp [calculate_psnr, hm]
  · have hm : mse a a = 0 := by simp [mse]
    simp [calculate_psnr, hm]
  · intro hm
    rw [calculate_psnr, if_neg hm]

/-- Closed instantiation of `C8_psnr_infinite_iff_mse_zero` on a pair of
concrete same-shape 2×2×3 images. -/
theorem C8_psnr_infinite_iff_mse_zero_witness :
    demoImg.shape = demoImgZero.shape ∧ 0 < demoImg.shape.prod ∧
    ((calculate_psnr demoImg demoImgZero = none ↔
        mse demoImg demoImgZero = 0) ∧
      calculate_psnr demoImg demoImg = none ∧
      (mse demoImg demoImgZero ≠ 0 →
        calculate_psnr demoImg demoImgZero =
          some (round2 (20 * Real.logb 10
            (255 / Real.sqrt (mse demoImg demoImgZero : ℝ)))))) :=
  ⟨rfl, by decide,
   C8_psnr_infinite_iff_mse_zero demoImg demoImgZero rfl (by decide)⟩

/-- Closed instantiation of `C9_sample_visualize` on a concrete 2×2×3
image. -/
theorem C9_sample_visualize_witness :
    ∃ cfa, apply_bayer_mosaic demoImg = .ok cfa ∧
      ∀ i j, i < 2 → j < 2 →
        (generate_colorized_view cfa).data [i, j, rggbChannel i j] =
          demoImg.data [i, j, rggbChannel i j] ∧
        ∀ c, c < 3 → c ≠ rggbChannel i j →
          (generate_colorized_view cfa).data [i, j, c] = 0 :=
  C9_sample_visualize demoImg 2 2 rfl

end Mosaique
